import Mathlib

/-!
Verification of the SCRAM event/error model (`src/error.h`, `src/event.h`).

Shallow embedding conventions:
* C++ `double` values that are only compared or copied are modelled as `Rat`.
* A C++ `assert(P)` is embedded as a `LogicError` outcome when `P` fails,
  following `error.h`'s own description of `LogicError` as a pre-condition
  failure; the object state is returned unchanged in that case, matching the
  debug-build behaviour where the program halts before any mutation.
* A mutating member function that can throw is embedded as a function
  returning the new state paired with `Option ErrorClass`; `none` means a
  normal return, and on an error the returned state reflects exactly the
  mutations performed before the throw.
* `std::map<std::string, EventPtr>` is modelled as an association list; the
  code observes it only through `count` (key membership), `emplace` on an
  absent key, and `size`, all of which the list models faithfully.
-/

namespace scram

/-- The exception classes of `src/error.h`, one constructor per class. -/
inductive ErrorClass where
  | Error
  | IOError
  | InvalidArgument
  | LogicError
  | IllegalOperation
  | SettingsError
  | ValidationError
  | RedefinitionError
  | DuplicateArgumentError
  | UndefinedElement
  | CycleError
deriving DecidableEq

/-- Direct base class of each exception class, as declared in `src/error.h`
(`Error` derives only from the external `std::exception`/`boost::exception`;
`error.h:88-116` derive from `Error`; `error.h:126-143` derive from
`ValidationError`, itself deriving from `Error` at `error.h:121`). -/
def ErrorClass.base : ErrorClass → Option ErrorClass
  | .Error => none
  | .IOError => some .Error
  | .InvalidArgument => some .Error
  | .LogicError => some .Error
  | .IllegalOperation => some .Error
  | .SettingsError => some .Error
  | .ValidationError => some .Error
  | .RedefinitionError => some .ValidationError
  | .DuplicateArgumentError => some .ValidationError
  | .UndefinedElement => some .ValidationError
  | .CycleError => some .ValidationError

/-- Chain of base classes obtained by iterating `ErrorClass.base`; the fuel
bound 11 is the number of classes, so the chain is never truncated. -/
def ErrorClass.baseChainGo : Nat → ErrorClass → List ErrorClass
  | 0, _ => []
  | n + 1, a =>
    match a.base with
    | some p => p :: ErrorClass.baseChainGo n p
    | none => []

/-- All proper ancestors of an exception class. -/
def ErrorClass.baseChain (a : ErrorClass) : List ErrorClass :=
  ErrorClass.baseChainGo 11 a

/-- C++ subclass relation (reflexive): `a` is-a `b`. -/
def ErrorClass.isSubclassOf (a b : ErrorClass) : Bool :=
  a == b || a.baseChain.contains b

/-- A C++ `catch` clause for class `handler` catches a thrown object of class
`thrown` exactly when `thrown` is-a `handler`. -/
def ErrorClass.catches (handler thrown : ErrorClass) : Bool :=
  thrown.isSubclassOf handler

/-- Model of the `scram::Expression` interface used by `event.h`
(`expression.h` itself is not under `src/`): an expression is observed only
through its `Mean()`, `Min()` and `Max()` values (`event.h:148-151`,
`event.h:175-179`), recorded here as fields, with `double` modelled as `Rat`. -/
structure Expression where
  Mean : Rat
  Min : Rat
  Max : Rat
deriving DecidableEq

/-- The identifying data every `Event` carries (`event.h:71-72`): the
lower-case `id_` and the capitalization-preserving `name_`. -/
structure EventIdentity where
  id : String
  name : String
deriving DecidableEq

/-- Modelled from the spec: the `Event` constructor (declared `event.h:48`,
defined in `event.cc`, which is not under `src/`). Per the spec, every named
entity has a case-preserved `name` and a lower-cased `id`
("Every named entity has a case-preserved `name` and a lower-cased `id`"),
matching the comments at `event.h:71-72`. -/
def Event.construct (name : String) : EventIdentity :=
  { id := name.toLower, name := name }

/-- Modelled from the spec: "Identity comparisons use `id`". -/
def Event.identityEqual (a b : EventIdentity) : Bool :=
  a.id == b.id

/-- `scram::HouseEvent` (`event.h:101-120`) together with the fields it
inherits from `Event` (`event.h:71-73`) and `PrimaryEvent` (`event.h:96`). -/
structure HouseEvent where
  name : String
  id : String
  orphan : Bool
  has_expression : Bool
  state : Bool
deriving DecidableEq

/-- `HouseEvent::state(bool)` (`event.h:108-111`): sets `has_expression_`
to true via `PrimaryEvent::has_expression(true)` and `state_` to the
argument. -/
def HouseEvent.setState (h : HouseEvent) (constant : Bool) : HouseEvent :=
  { h with has_expression := true, state := constant }

mutual

/-- `scram::BasicEvent` (`event.h:127-214`) with the fields inherited from
`Event` and `PrimaryEvent`: `expression_` (`event.h:208`) and `ccf_gate_`
(`event.h:213`) are nullable shared pointers, modelled as `Option`. -/
inductive BasicEvent where
  | mk (name id : String) (orphan has_expression : Bool)
      (expression : Option Expression) (ccf_gate : Option Gate) : BasicEvent

/-- `scram::Gate` (`event.h:261-296`): an `Event` owning an optional
`Formula` (`event.h:294`) and a traversal mark string (`event.h:295`). -/
inductive Gate where
  | mk (name id : String) (orphan : Bool) (formula : Option Formula)
      (mark : String) : Gate

/-- An event argument of a formula, one constructor per `AddArgument`
overload (`event.h:357-365`): house event, basic event, or gate. -/
inductive EventArg where
  | house : HouseEvent → EventArg
  | basic : BasicEvent → EventArg
  | gate : Gate → EventArg

/-- `scram::Formula` (`event.h:301-428`): logical operator `type_`, the
vote number for ATLEAST (an `int` that is unset until assigned, hence
`Option`), the `id → event` map `event_args_`, the three typed argument
sequences, and the nested formula arguments. -/
inductive Formula where
  | mk (type : String) (vote_number : Option Int)
      (event_args : List (String × EventArg))
      (house_event_args : List HouseEvent)
      (basic_event_args : List BasicEvent)
      (gate_args : List Gate)
      (formula_args : List Formula) : Formula

end

def BasicEvent.name : BasicEvent → String
  | .mk n _ _ _ _ _ => n

def BasicEvent.id : BasicEvent → String
  | .mk _ i _ _ _ _ => i

def BasicEvent.orphan : BasicEvent → Bool
  | .mk _ _ o _ _ _ => o

/-- `PrimaryEvent::has_expression()` (`event.h:86`). -/
def BasicEvent.has_expression : BasicEvent → Bool
  | .mk _ _ _ he _ _ => he

def BasicEvent.expression : BasicEvent → Option Expression
  | .mk _ _ _ _ e _ => e

def BasicEvent.ccf_gate : BasicEvent → Option Gate
  | .mk _ _ _ _ _ g => g

def Gate.name : Gate → String
  | .mk n _ _ _ _ => n

def Gate.id : Gate → String
  | .mk _ i _ _ _ => i

def Formula.type : Formula → String
  | .mk t _ _ _ _ _ _ => t

def Formula.vote_number : Formula → Option Int
  | .mk _ v _ _ _ _ _ => v

def Formula.event_args : Formula → List (String × EventArg)
  | .mk _ _ ea _ _ _ _ => ea

def Formula.house_event_args : Formula → List HouseEvent
  | .mk _ _ _ ha _ _ _ => ha

def Formula.basic_event_args : Formula → List BasicEvent
  | .mk _ _ _ _ ba _ _ => ba

def Formula.gate_args : Formula → List Gate
  | .mk _ _ _ _ _ ga _ => ga

def Formula.formula_args : Formula → List Formula
  | .mk _ _ _ _ _ _ fa => fa

/-- The id of an event argument: each `AddArgument` overload reads
`event->id()` of its respective event class. -/
def EventArg.id : EventArg → String
  | .house h => h.id
  | .basic b => b.id
  | .gate g => g.id

/-- The name of an event argument (used in the duplicate error message). -/
def EventArg.name : EventArg → String
  | .house h => h.name
  | .basic b => b.name
  | .gate g => g.name

/-- Modelled from the spec for the inherited `Event` constructor part
(`event.cc` is not under `src/`): id is the lower-cased name. The member
initializers ARE in the header: `has_expression_ = false` (`event.h:96`),
and `expression_`/`ccf_gate_` are default-constructed null shared pointers
(`event.h:208`, `event.h:213`). `orphan_` (`event.h:73`) is set by the
`Event` constructor in `event.cc`; its value is irrelevant to every property
proved here and is taken as `false`. -/
def BasicEvent.construct (name : String) : BasicEvent :=
  .mk name name.toLower false false none none

/-- `BasicEvent::expression(const ExpressionPtr&)` (`event.h:136-140`):
`assert(!expression_)`, then `has_expression(true)` and store the
expression. A failed assert is a `LogicError` outcome with the state
unchanged (see the file header). -/
def BasicEvent.setExpression (b : BasicEvent) (e : Expression) :
    BasicEvent × Option ErrorClass :=
  match b with
  | .mk n i o _ ex cg =>
    if ex.isSome then (b, some .LogicError)
    else (.mk n i o true (some e) cg, none)

/-- `BasicEvent::p()` (`event.h:148-151`): `assert(expression_)`, then
return `expression_->Mean()`. The method is `const`, so it is a pure
function of the event; `none` models the failed assert. -/
def BasicEvent.p (b : BasicEvent) : Option Rat :=
  match b.expression with
  | some e => some e.Mean
  | none => none

/-- `BasicEvent::Validate()` (`event.h:175-179`): throws `ValidationError`
when `expression_->Min() < 0 || expression_->Max() > 1`. With a null
`expression_` the C++ dereference is out of contract; that case is mapped
to `LogicError` per the pre-condition convention in the file header. -/
def BasicEvent.Validate (b : BasicEvent) : Option ErrorClass :=
  match b.expression with
  | some e => if e.Min < 0 ∨ e.Max > 1 then some .ValidationError else none
  | none => some .LogicError

/-- `BasicEvent::HasCcf()` (`event.h:185`): `ccf_gate_ ? true : false`. -/
def BasicEvent.HasCcf (b : BasicEvent) : Bool :=
  b.ccf_gate.isSome

/-- `BasicEvent::ccf_gate()` getter (`event.h:188-191`):
`assert(ccf_gate_)`, then return the gate; `none` models the failed
assert. -/
def BasicEvent.ccfGateGet (b : BasicEvent) : Option Gate :=
  b.ccf_gate

/-- `BasicEvent::ccf_gate(const GatePtr&)` setter (`event.h:200-203`):
`assert(!ccf_gate_)`, then store the gate. -/
def BasicEvent.setCcfGate (b : BasicEvent) (gate : Gate) :
    BasicEvent × Option ErrorClass :=
  match b with
  | .mk n i o he ex cg =>
    if cg.isSome then (b, some .LogicError)
    else (.mk n i o he ex (some gate), none)

/-- `Formula::num_args()` (`event.h:348`):
`event_args_.size() + formula_args_.size()`. -/
def Formula.num_args (f : Formula) : Nat :=
  f.event_args.length + f.formula_args.length

/-- `event_args_.count(id)` (`event.h:407`): key membership in the
`id → event` map. -/
def Formula.hasEventId (f : Formula) (i : String) : Bool :=
  f.event_args.any (fun p => p.1 == i)

/-- The three event `AddArgument` overloads (`event.h:357-365`) all
instantiate the template at `event.h:405-411`: if `event_args_` already
holds the event's id, throw `DuplicateArgumentError` (before any mutation);
otherwise emplace the event into the map and append it to the typed
container selected by the overload. -/
def Formula.AddArgument (f : Formula) (e : EventArg) :
    Formula × Option ErrorClass :=
  match f with
  | .mk t v ea ha ba ga fa =>
    if ea.any (fun p => p.1 == e.id) then (f, some .DuplicateArgumentError)
    else
      match e with
      | .house h => (.mk t v (ea ++ [(e.id, e)]) (ha ++ [h]) ba ga fa, none)
      | .basic b => (.mk t v (ea ++ [(e.id, e)]) ha (ba ++ [b]) ga fa, none)
      | .gate g => (.mk t v (ea ++ [(e.id, e)]) ha ba (ga ++ [g]) fa, none)

/-- Modelled from the spec: the operator set `kTwoOrMore_` ("Formula types
that require two or more arguments", declared `event.h:393`, initialized in
`event.cc`, which is not under `src/`); per the spec, "AND, OR, NAND, NOR,
XOR: two or more". -/
def Formula.kTwoOrMore : List String :=
  ["and", "or", "nand", "nor", "xor"]

/-- Modelled from the spec: the operator set `kSingle_` ("Formula types that
require exactly one argument", declared `event.h:395`, initialized in
`event.cc`); per the spec, "NULL, NOT: exactly one argument". -/
def Formula.kSingle : List String :=
  ["null", "not"]

/-- Modelled from the spec: `Formula::Validate()` (declared `event.h:377`,
defined in `event.cc`, which is not under `src/`). Per the spec it "checks
arity and, for ATLEAST, `k` bounds", throwing `ValidationError` on
violation: NULL and NOT need exactly one argument; AND, OR, NAND, NOR, XOR
need two or more; ATLEAST needs two or more with `2 ≤ k < n`. An unset vote
number or an operator outside the spec's closed set is out of contract and
mapped to `LogicError` (no claim depends on those branches). -/
def Formula.Validate (f : Formula) : Option ErrorClass :=
  if f.type ∈ Formula.kSingle then
    if f.num_args = 1 then none else some .ValidationError
  else if f.type ∈ Formula.kTwoOrMore then
    if 2 ≤ f.num_args then none else some .ValidationError
  else if f.type = "atleast" then
    match f.vote_number with
    | some k =>
      if 2 ≤ f.num_args ∧ 2 ≤ k ∧ k < (f.num_args : Int) then none
      else some .ValidationError
    | none => some .LogicError
  else some .LogicError

/-- Claim C1: for a `BasicEvent` with an expression `e` set, `Validate()`
throws `ValidationError` iff `Min(e) < 0` or `Max(e) > 1`; when the support
of `e` lies within `[0, 1]`, `Validate()` returns normally. -/
theorem basicEvent_validate_range_iff (b : BasicEvent) (e : Expression)
    (h : b.expression = some e) :
    (b.Validate = some .ValidationError ↔ (e.Min < 0 ∨ e.Max > 1)) ∧
    ((0 ≤ e.Min ∧ e.Max ≤ 1) → b.Validate = none) := by
  constructor
  · by_cases hc : e.Min < 0 ∨ e.Max > 1 <;>
      simp [BasicEvent.Validate, h, hc]
  · rintro ⟨h1, h2⟩
    have hc : ¬(e.Min < 0 ∨ e.Max > 1) := by
      push_neg
      exact ⟨h1, h2⟩
    simp [BasicEvent.Validate, h, hc]

/-- Closed instance of `basicEvent_validate_range_iff` at a concrete basic
event whose expression has support `[0, 1]`. -/
theorem basicEvent_validate_range_iff_witness :
    (BasicEvent.mk "Pump" "pump" false true
        (some ⟨(1 : Rat) / 2, 0, 1⟩) none).Validate = none :=
  (basicEvent_validate_range_iff
      (BasicEvent.mk "Pump" "pump" false true
        (some ⟨(1 : Rat) / 2, 0, 1⟩) none)
      ⟨(1 : Rat) / 2, 0, 1⟩ rfl).2 (by norm_num)

/-- Claim C2: `Formula::AddArgument` with a house, basic, or gate event
raises `DuplicateArgumentError` exactly when an event with the same id was
already added to the formula, and returns normally exactly when the id is
not yet present. -/
theorem formula_addArgument_duplicate_iff (f : Formula) (e : EventArg) :
    ((f.AddArgument e).2 = some .DuplicateArgumentError ↔
      f.hasEventId e.id = true) ∧
    ((f.AddArgument e).2 = none ↔ f.hasEventId e.id = false) := by
  cases f with
  | mk t v ea ha ba ga fa =>
    cases hc : ea.any (fun p => p.1 == e.id) with
    | true =>
      simp [Formula.AddArgument, Formula.hasEventId, Formula.event_args, hc]
    | false =>
      cases e <;>
        simp [Formula.AddArgument, Formula.hasEventId, Formula.event_args, hc]

/-- Claim C5: for a `BasicEvent` whose expression is set, `p()` returns
exactly the expression's `Mean()`; `p` is embedded as a pure function of
the event (the C++ method is `const noexcept`), so the call modifies
nothing. -/
theorem basicEvent_p_returns_mean (b : BasicEvent) (e : Expression)
    (h : b.expression = some e) : b.p = some e.Mean := by
  simp [BasicEvent.p, h]

/-- Closed instance of `basicEvent_p_returns_mean` at a concrete basic
event. -/
theorem basicEvent_p_returns_mean_witness :
    (BasicEvent.mk "Valve" "valve" false true
        (some ⟨(3 : Rat) / 10, 0, 1⟩) none).p = some ((3 : Rat) / 10) :=
  basicEvent_p_returns_mean _ ⟨(3 : Rat) / 10, 0, 1⟩ rfl

/-- Claim C6: `HouseEvent::state(b)` makes `state()` return `b` and
`has_expression()` return `true`, and leaves `id`, `name`, and the orphan
flag unchanged. -/
theorem houseEvent_setState_frame (h : HouseEvent) (b : Bool) :
    (h.setState b).state = b ∧
    (h.setState b).has_expression = true ∧
    (h.setState b).id = h.id ∧
    (h.setState b).name = h.name ∧
    (h.setState b).orphan = h.orphan :=
  ⟨rfl, rfl, rfl, rfl, rfl⟩

/-- Claim C7: an `Event` constructed with name `n` preserves the
capitalization of `n` in `name()` and stores the lower-cased form as
`id()`; identity comparison of two events holds exactly when their ids are
equal. -/
theorem event_identity_spec (n : String) (a b : EventIdentity) :
    (Event.construct n).name = n ∧
    (Event.construct n).id = n.toLower ∧
    (Event.identityEqual a b = true ↔ a.id = b.id) := by
  refine ⟨rfl, rfl, ?_⟩
  simp [Event.identityEqual]

/-- Claim C8: `RedefinitionError`, `DuplicateArgumentError`,
`UndefinedElement`, and `CycleError` are each subclasses of
`ValidationError`, so a handler for `ValidationError` catches all four. -/
theorem validationError_subsumes_four :
    (ErrorClass.RedefinitionError.isSubclassOf .ValidationError = true ∧
     ErrorClass.DuplicateArgumentError.isSubclassOf .ValidationError = true ∧
     ErrorClass.UndefinedElement.isSubclassOf .ValidationError = true ∧
     ErrorClass.CycleError.isSubclassOf .ValidationError = true) ∧
    (ErrorClass.catches .ValidationError .RedefinitionError = true ∧
     ErrorClass.catches .ValidationError .DuplicateArgumentError = true ∧
     ErrorClass.catches .ValidationError .UndefinedElement = true ∧
     ErrorClass.catches .ValidationError .CycleError = true) := by
  decide

/-- Claim C3: `Formula::Validate()` throws `ValidationError` exactly when
the argument count violates the arity rule of the formula's operator:
NULL and NOT require exactly one argument; AND, OR, NAND, NOR, XOR require
two or more; ATLEAST requires two or more arguments with a vote number `k`
satisfying `2 ≤ k < n`. -/
theorem formula_validate_arity (f : Formula) :
    (f.type ∈ Formula.kSingle →
      ((f.Validate = none ↔ f.num_args = 1) ∧
       (f.Validate = some .ValidationError ↔ f.num_args ≠ 1))) ∧
    (f.type ∈ Formula.kTwoOrMore →
      ((f.Validate = none ↔ 2 ≤ f.num_args) ∧
       (f.Validate = some .ValidationError ↔ ¬ 2 ≤ f.num_args))) ∧
    (∀ k : Int, f.type = "atleast" → f.vote_number = some k →
      ((f.Validate = none ↔
          (2 ≤ f.num_args ∧ 2 ≤ k ∧ k < (f.num_args : Int))) ∧
       (f.Validate = some .ValidationError ↔
          ¬ (2 ≤ f.num_args ∧ 2 ≤ k ∧ k < (f.num_args : Int))))) := by
  refine ⟨?_, ?_, ?_⟩
  · intro hs
    by_cases hn : f.num_args = 1 <;> simp [Formula.Validate, hs, hn]
  · intro ht
    have ht2 := ht
    simp only [Formula.kTwoOrMore, List.mem_cons, List.not_mem_nil,
      or_false] at ht2
    have hns : f.type ∉ Formula.kSingle := by
      rcases ht2 with h | h | h | h | h <;> rw [h] <;> decide
    by_cases hn : 2 ≤ f.num_args <;> simp [Formula.Validate, hns, ht, hn]
  · intro k hty hv
    have hns : "atleast" ∉ Formula.kSingle := by decide
    have hnt : "atleast" ∉ Formula.kTwoOrMore := by decide
    by_cases hc : 2 ≤ f.num_args ∧ 2 ≤ k ∧ k < (f.num_args : Int) <;>
      simp [Formula.Validate, hns, hnt, hty, hv, hc]

/-- Closed instance of `formula_validate_arity` at concrete NOT, AND, and
ATLEAST formulas of valid arity. -/
theorem formula_validate_arity_witness :
    (Formula.mk "not" none [] [] [] []
        [Formula.mk "or" none [] [] [] [] []]).Validate = none ∧
    (Formula.mk "and" none [] [] [] []
        [Formula.mk "or" none [] [] [] [] [],
         Formula.mk "nor" none [] [] [] [] []]).Validate = none ∧
    (Formula.mk "atleast" (some 2) [] [] [] []
        [Formula.mk "or" none [] [] [] [] [],
         Formula.mk "nor" none [] [] [] [] [],
         Formula.mk "xor" none [] [] [] [] []]).Validate = none :=
  ⟨((formula_validate_arity _).1 (by decide)).1.mpr (by decide),
   ((formula_validate_arity _).2.1 (by decide)).1.mpr (by decide),
   ((formula_validate_arity _).2.2 2 (by decide) (by decide)).1.mpr
     (by decide)⟩

/-- Claim C4: the expression of a `BasicEvent` may be assigned at most
once: after a successful assignment, a second assignment yields a
`LogicError` outcome (the failed `assert(!expression_)` pre-condition,
`event.h:137`) and leaves the event — in particular its expression and its
`has_expression` flag — unchanged. -/
theorem basicEvent_expression_once (b : BasicEvent) (e e' : Expression)
    (h : (b.setExpression e).2 = none) :
    ((b.setExpression e).1.setExpression e').2 = some .LogicError ∧
    ((b.setExpression e).1.setExpression e').1 = (b.setExpression e).1 ∧
    ((b.setExpression e).1.setExpression e').1.expression =
      (b.setExpression e).1.expression ∧
    ((b.setExpression e).1.setExpression e').1.has_expression =
      (b.setExpression e).1.has_expression := by
  cases b with
  | mk n i o he ex cg =>
    cases ex with
    | some e0 => simp [BasicEvent.setExpression] at h
    | none => simp [BasicEvent.setExpression]

/-- Closed instance of `basicEvent_expression_once`: the second assignment
to a concrete basic event is refused. -/
theorem basicEvent_expression_once_witness :
    (((BasicEvent.mk "B" "b" false false none none).setExpression
        ⟨1, 1, 1⟩).1.setExpression ⟨0, 0, 0⟩).2 = some .LogicError :=
  (basicEvent_expression_once (BasicEvent.mk "B" "b" false false none none)
      ⟨1, 1, 1⟩ ⟨0, 0, 0⟩ rfl).1

/-- Claim C9: `Formula::AddArgument` is atomic on error: when it raises
`DuplicateArgumentError`, the formula — event map, typed sequences, and
`num_args()` — is exactly as before the call (the throw at `event.h:408`
precedes every mutation); on a normal return `num_args()` grows by exactly
one. -/
theorem formula_addArgument_atomic (f : Formula) (e : EventArg) :
    ((f.AddArgument e).2.isSome →
      f.AddArgument e = (f, some .DuplicateArgumentError)) ∧
    ((f.AddArgument e).2 = none →
      (f.AddArgument e).1.num_args = f.num_args + 1) := by
  cases f with
  | mk t v ea ha ba ga fa =>
    cases hc : ea.any (fun p => p.1 == e.id) with
    | true =>
      constructor
      · intro _
        simp [Formula.AddArgument, hc]
      · intro hnone
        simp [Formula.AddArgument, hc] at hnone
    | false =>
      constructor
      · intro hsome
        cases e <;> simp [Formula.AddArgument, hc] at hsome
      · intro _
        cases e <;>
          simp [Formula.AddArgument, Formula.num_args, Formula.event_args,
            Formula.formula_args, hc] <;> omega

/-- Closed instance of `formula_addArgument_atomic`: adding the same basic
event twice to an AND formula fails atomically the second time, and the
successful first call grows `num_args` by one. -/
theorem formula_addArgument_atomic_witness :
    (((Formula.mk "and" none [] [] [] [] []).AddArgument
        (.basic (BasicEvent.mk "X" "x" false false none none))).1.AddArgument
        (.basic (BasicEvent.mk "X" "x" false false none none)) =
      (((Formula.mk "and" none [] [] [] [] []).AddArgument
          (.basic (BasicEvent.mk "X" "x" false false none none))).1,
       some .DuplicateArgumentError)) ∧
    (((Formula.mk "and" none [] [] [] [] []).AddArgument
        (.basic (BasicEvent.mk "X" "x" false false none none))).1.num_args =
      (Formula.mk "and" none [] [] [] [] []).num_args + 1) :=
  ⟨(formula_addArgument_atomic _ _).1 (by decide),
   (formula_addArgument_atomic _ _).2 (by decide)⟩

/-- Claim C10: the CCF-gate protocol of `BasicEvent`: a freshly constructed
event has `HasCcf()` false; assigning a gate to an event without one
succeeds and makes `HasCcf()` true; assigning when a gate is already set is
a `LogicError` outcome (the failed `assert(!ccf_gate_)`, `event.h:201`)
that leaves the event unchanged, so the gate is assigned at most once; and
the `ccf_gate()` getter returns a gate exactly when one has been assigned
(its `assert(ccf_gate_)`, `event.h:189`, forbids earlier calls). -/
theorem basicEvent_ccf_protocol :
    (∀ n, (BasicEvent.construct n).HasCcf = false) ∧
    (∀ (b : BasicEvent) (g : Gate), b.HasCcf = false →
      (b.setCcfGate g).2 = none ∧ (b.setCcfGate g).1.HasCcf = true) ∧
    (∀ (b : BasicEvent) (g : Gate), b.HasCcf = true →
      b.setCcfGate g = (b, some .LogicError)) ∧
    (∀ b : BasicEvent, b.ccfGateGet.isSome = b.HasCcf) := by
  refine ⟨fun n => rfl, ?_, ?_, fun b => rfl⟩
  · intro b g h
    cases b with
    | mk n i o he ex cg =>
      cases cg with
      | some g0 => simp [BasicEvent.HasCcf, BasicEvent.ccf_gate] at h
      | none =>
        simp [BasicEvent.setCcfGate, BasicEvent.HasCcf, BasicEvent.ccf_gate]
  · intro b g h
    cases b with
    | mk n i o he ex cg =>
      cases cg with
      | some g0 => simp [BasicEvent.setCcfGate]
      | none => simp [BasicEvent.HasCcf, BasicEvent.ccf_gate] at h

/-- Closed instance of `basicEvent_ccf_protocol`: assigning a CCF gate to a
fresh event succeeds, and a second assignment is refused with the event
unchanged. -/
theorem basicEvent_ccf_protocol_witness :
    (((BasicEvent.mk "M" "m" false false none none).setCcfGate
        (Gate.mk "G" "g" false none "")).2 = none ∧
     ((BasicEvent.mk "M" "m" false false none none).setCcfGate
        (Gate.mk "G" "g" false none "")).1.HasCcf = true) ∧
    ((BasicEvent.mk "M" "m" false false none
        (some (Gate.mk "G" "g" false none ""))).setCcfGate
        (Gate.mk "G" "g" false none "") =
      (BasicEvent.mk "M" "m" false false none
        (some (Gate.mk "G" "g" false none "")), some .LogicError)) :=
  ⟨basicEvent_ccf_protocol.2.1 _ _ rfl,
   basicEvent_ccf_protocol.2.2.1 _ _ rfl⟩

end scram
